import Mathlib

/-!
Shallow embedding of `src/priv/ml/anomaly_detector.py` (the anomaly-detection
engine of the volfefe repository) together with theorems settling the frozen
claims about it.

Modelling conventions:
* Python floats are modelled as real numbers (`ℝ`); machine rounding is not
  modelled, matching the spec's "within floating-point tolerance" reading.
* A feature matrix is a `List (List ℝ)` (row major); JSON feature cells before
  coercion are the inductive `Cell`.
* Exceptions are modelled with `Except`: each Python `raise` site becomes an
  `Except.error` carrying a `PyError` value.
* The filesystem is a map from resolved absolute paths (component lists) to
  stored model bundles; `joblib.dump`/`joblib.load` round-trip a `SavedModel`
  value exactly.
* scikit-learn's `IsolationForest` is external to the repository.  Its
  documented API semantics are embedded: `decision_function x =
  score_samples x - offset_`, `predict x = -1` iff `decision_function x < 0`
  else `1`, training is a deterministic function of the integer
  `random_state`, and parameter validation rejects `n_estimators < 1` and a
  numeric `contamination` outside `(0, 0.5]`; `StandardScaler` rejects
  matrices with zero feature columns.  The trained
  forest itself is abstracted as an arbitrary deterministic training function
  (`TrainFn`), quantified over in the theorems, since no claim depends on the
  tree-building internals.
-/

noncomputable section

namespace Volfefe

/-- A raw JSON feature cell, before the numeric coercion in `process_input`:
a finite number (also covering bools and strings that `float()` parses to a
finite value), a NaN, an infinity of either sign, a JSON `null` (Python
`None`), or an unparseable value on which `float()` raises. -/
inductive Cell where
  | num (x : ℝ)
  | nan
  | inf
  | neginf
  | null
  | junk

/-- The element-wise `to_numeric` closure in `process_input`: `None` becomes
NaN, a value on which `float()` raises becomes NaN, every other value is its
float conversion. -/
def Cell.to_numeric : Cell → Cell
  | .null => .nan
  | .junk => .nan
  | c => c

/-- `np.nan_to_num(·, nan=0.0, posinf=0.0, neginf=0.0)` on a single cell. -/
def Cell.nan_to_num : Cell → ℝ
  | .num x => x
  | _ => 0

/-- The complete per-cell numeric coercion of `process_input`. -/
def processCell (c : Cell) : ℝ :=
  c.to_numeric.nan_to_num

/-- The feature-matrix coercion of `process_input` (lines 236-252): applied
element-wise, preserving the row/column structure. -/
def processMatrix (m : List (List Cell)) : List (List ℝ) :=
  m.map (fun row => row.map processCell)

/-- Fitted `StandardScaler` state: per-column means and scales (standard
deviations, with zero replaced by one at fit time). -/
structure Scaler where
  means : List ℝ
  stds : List ℝ

/-- `StandardScaler.transform` on one row: `(x - mean) / scale` per column. -/
def Scaler.transformRow (s : Scaler) (row : List ℝ) : List ℝ :=
  (row.zip (s.means.zip s.stds)).map (fun p => (p.1 - p.2.1) / p.2.2)

/-- `StandardScaler.transform` on a matrix. -/
def Scaler.transform (s : Scaler) (X : List (List ℝ)) : List (List ℝ) :=
  X.map s.transformRow

/-- Mean of a column. -/
def colMean (col : List ℝ) : ℝ :=
  col.sum / col.length

/-- Population standard deviation of a column (`ddof=0`, as StandardScaler
uses). -/
def colStd (col : List ℝ) : ℝ :=
  Real.sqrt ((col.map (fun x => (x - colMean col) ^ 2)).sum / col.length)

/-- `StandardScaler.fit`: per-column mean and standard deviation over the
training matrix, a zero standard deviation replaced by one. -/
def fitScaler (X : List (List ℝ)) : Scaler :=
  let cols := X.transpose
  { means := cols.map colMean
    stds := cols.map (fun c => if colStd c = 0 then 1 else colStd c) }

/-- A fitted scikit-learn `IsolationForest`, abstracted to its observable
state: the `score_samples` map (higher = more normal, per scikit-learn's
convention) and the fitted `offset_`. -/
structure ForestModel where
  scoreSamples : List ℝ → ℝ
  offset : ℝ

/-- scikit-learn's documented `decision_function`: `score_samples` minus
`offset_`; negative values are outliers. -/
def ForestModel.decision_function (m : ForestModel) (x : List ℝ) : ℝ :=
  m.scoreSamples x - m.offset

/-- scikit-learn's documented `predict` on one sample: `-1` (outlier) where
the decision function is negative, else `1` (inlier). -/
def ForestModel.predictOne (m : ForestModel) (x : List ℝ) : ℤ :=
  if m.decision_function x < 0 then -1 else 1

/-- Abstract deterministic trainer for `IsolationForest.fit`:
seed → n_estimators → contamination → scaled training matrix → fitted forest.
Training with an integer `random_state` is documented to be deterministic,
so the forest is a function of these arguments; the claims do not depend on
the tree-building internals, which stay universally quantified. -/
def TrainFn : Type :=
  ℕ → ℕ → ℝ → List (List ℝ) → ForestModel

/-- The exception values raised by the embedded code and the library calls it
makes.  `untrustedPath` carries the two allowed roots named in the message of
the `ValueError` raised by `AnomalyDetector.load`. -/
inductive PyError where
  | notFitted
  | cannotSaveUnfitted
  | untrustedPath (trustedRoot privRoot : List String)
  | fileNotFound
  | invalidParameter
  | zeroFeatures
  | attributeError
deriving DecidableEq

/-- Width of a matrix, as numpy's `shape[1]` on a well-formed 2-D array. -/
def matrixWidth (X : List (List ℝ)) : ℕ :=
  ((X.head?).map List.length).getD 0

/-- `StandardScaler().fit_transform`: scikit-learn's `check_array` raises a
`ValueError` on a matrix with zero feature columns; otherwise the scaler is
fitted and the scaled matrix returned. -/
def libScalerFitTransform (X : List (List ℝ)) :
    Except PyError (Scaler × List (List ℝ)) :=
  if matrixWidth X = 0 then .error .zeroFeatures
  else
    let s := fitScaler X
    .ok (s, s.transform X)

/-- `IsolationForest(...).fit`: scikit-learn's parameter validation rejects
`n_estimators < 1` and a numeric `contamination` outside the documented range
`(0, 0.5]` with an `InvalidParameterError`; otherwise training is the
deterministic function of the effective seed.  When `random_state` is an
integer it is used as the seed; when it is `None` the ambient global
random-stream state (`entropy`) is used. -/
def libIsolationForestFit (train : TrainFn) (nEstimators : ℕ)
    (contamination : ℝ) (randomState : Option ℕ) (entropy : ℕ)
    (X : List (List ℝ)) : Except PyError ForestModel :=
  if nEstimators < 1 then .error .invalidParameter
  else if ¬(0 < contamination ∧ contamination ≤ 1 / 2) then
    .error .invalidParameter
  else .ok (train (randomState.getD entropy) nEstimators contamination X)

/-- The `AnomalyDetector` object state. -/
structure AnomalyDetector where
  contamination : ℝ
  n_estimators : ℕ
  model : Option ForestModel
  scaler : Option Scaler
  feature_names : List String
  is_fitted : Bool

/-- `AnomalyDetector.__init__`. -/
def AnomalyDetector.init (contamination : ℝ) (n_estimators : ℕ) :
    AnomalyDetector :=
  { contamination := contamination
    n_estimators := n_estimators
    model := none
    scaler := none
    feature_names := []
    is_fitted := false }

/-- The synthesized default feature names `feature_0 .. feature_{n-1}`. -/
def defaultFeatureNames (n : ℕ) : List String :=
  (List.range n).map (fun i => "feature_" ++ toString i)

/-- `AnomalyDetector.fit`: scale the features with a freshly fitted
`StandardScaler`, then train an `IsolationForest` with the fixed
`random_state=42`.  `entropy` is the ambient global random-stream state that
scikit-learn would consult only if `random_state` were `None`. -/
def AnomalyDetector.fit (train : TrainFn) (entropy : ℕ) (d : AnomalyDetector)
    (features : List (List ℝ)) (featureNames : List String) :
    Except PyError AnomalyDetector :=
  let fnames := if featureNames.isEmpty then
      defaultFeatureNames (matrixWidth features)
    else featureNames
  match libScalerFitTransform features with
  | .error e => .error e
  | .ok (scaler, scaled) =>
    match libIsolationForestFit train d.n_estimators d.contamination
        (some 42) entropy scaled with
    | .error e => .error e
    | .ok model =>
      .ok { d with
              feature_names := fnames
              scaler := some scaler
              model := some model
              is_fitted := true }

/-- The sigmoid-like transformation applied to the raw scores in
`AnomalyDetector.predict`: `1 / (1 + np.exp(raw_scores * 1.0))`. -/
def anomalyScoreOf (r : ℝ) : ℝ :=
  1 / (1 + Real.exp (r * 1))

/-- The batch result dictionary returned by `AnomalyDetector.predict`. -/
structure PredictResult where
  predictions : List ℤ
  anomaly_scores : List ℝ
  confidence : List ℝ
  raw_scores : List ℝ
  threshold : ℝ

/-- `AnomalyDetector.predict`: raises `ValueError("Model not fitted...")`
when `is_fitted` is false; otherwise scales the features with the stored
scaler and builds the result from the model's `predict`,
`decision_function` and `offset_`.  An `is_fitted` flag set without a model
or scaler present would crash in Python (`AttributeError`), modelled as
`attributeError`. -/
def AnomalyDetector.predict (d : AnomalyDetector) (features : List (List ℝ)) :
    Except PyError PredictResult :=
  if d.is_fitted = false then .error .notFitted
  else
    match d.scaler, d.model with
    | some s, some m =>
      let scaled := s.transform features
      let raw := scaled.map m.decision_function
      .ok { predictions := scaled.map m.predictOne
            anomaly_scores := raw.map anomalyScoreOf
            confidence := raw.map (fun r => min (|r - m.offset| / 2) 1)
            raw_scores := raw
            threshold := m.offset }
    | _, _ => .error .attributeError

/-- `AnomalyDetector.fit_predict`: fit, then predict on the same data. -/
def AnomalyDetector.fit_predict (train : TrainFn) (entropy : ℕ)
    (d : AnomalyDetector) (features : List (List ℝ))
    (featureNames : List String) : Except PyError PredictResult :=
  match d.fit train entropy features featureNames with
  | .error e => .error e
  | .ok d2 => d2.predict features

/-- The bundle written by `joblib.dump` in `AnomalyDetector.save`. -/
structure SavedModel where
  model : Option ForestModel
  scaler : Option Scaler
  feature_names : List String
  contamination : ℝ
  n_estimators : ℕ

/-- The filesystem, restricted to model files: resolved absolute path
(component list) to stored bundle. -/
def Store : Type :=
  List String → Option SavedModel

/-- A Python path argument: absolute or relative, as a component list that
may contain `.` and `..` segments. -/
structure PyPath where
  absolute : Bool
  comps : List String

/-- Lexical resolution of path components against an accumulated absolute
prefix: `..` pops a component (staying at the root when already there, as
POSIX resolution does), `.` is dropped, anything else is appended. -/
def resolveComps : List String → List String → List String
  | acc, [] => acc
  | acc, ".." :: rest => resolveComps acc.dropLast rest
  | acc, "." :: rest => resolveComps acc rest
  | acc, c :: rest => resolveComps (acc ++ [c]) rest

/-- `pathlib.Path(p).resolve()`: make the path absolute against the current
working directory and resolve `.`/`..` segments. -/
def resolvePath (cwd : List String) (p : PyPath) : List String :=
  resolveComps (if p.absolute then [] else cwd) p.comps

/-- `pathlib.PurePath.suffix` of a file name: the part from the last dot on,
empty when there is no dot, when the only dot is the leading character, or
when the name ends in a dot. -/
def pySuffix (name : String) : String :=
  let parts := name.splitOn "."
  if parts.length < 2 then ""
  else if parts.getLastD "" = "" then ""
  else if parts.length = 2 ∧ parts.headD "" = "" then ""
  else "." ++ parts.getLastD ""

/-- The resolved directory of `anomaly_detector.py`
(`Path(__file__).parent`), fixed here as a representative absolute
location of `priv/ml` in the deployed tree. -/
def fileDir : List String :=
  ["app", "priv", "ml"]

/-- `AnomalyDetector.TRUSTED_MODEL_DIR.resolve()`:
`Path(__file__).parent / "models"`. -/
def trustedModelDir : List String :=
  fileDir ++ ["models"]

/-- `Path(__file__).parent.parent.resolve()`: the `priv` root. -/
def privDir : List String :=
  fileDir.dropLast

/-- `AnomalyDetector._is_path_within` on already-resolved absolute paths:
`child.is_relative_to(parent)`, i.e. the parent's components are a prefix of
the child's. -/
def is_path_within (child parent : List String) : Bool :=
  parent.isPrefixOf child

/-- The `is_trusted` condition computed in `AnomalyDetector.load` for a
resolved path: within the trusted models directory, or within the `priv`
root with the `.joblib` extension. -/
def isTrustedResolved (resolved : List String) : Bool :=
  is_path_within resolved trustedModelDir ||
    (is_path_within resolved privDir &&
      pySuffix (resolved.getLastD "") = ".joblib")

/-- `AnomalyDetector.load`: resolve the path, apply the trust policy (raising
a `ValueError` naming both allowed roots when it fails), raise
`FileNotFoundError` when the trusted path does not exist, otherwise rebuild
the detector from the stored bundle with `is_fitted = true`. -/
def AnomalyDetector.load (store : Store) (cwd : List String) (path : PyPath) :
    Except PyError AnomalyDetector :=
  let resolved := resolvePath cwd path
  if isTrustedResolved resolved = false then
    .error (.untrustedPath trustedModelDir privDir)
  else
    match store resolved with
    | none => .error .fileNotFound
    | some data =>
      .ok { contamination := data.contamination
            n_estimators := data.n_estimators
            model := data.model
            scaler := data.scaler
            feature_names := data.feature_names
            is_fitted := true }

/-- `AnomalyDetector.save`: raises on an unfitted model, otherwise writes the
joblib bundle at the resolved path (the operating system resolves the path on
`open`). -/
def AnomalyDetector.save (d : AnomalyDetector) (store : Store)
    (cwd : List String) (path : PyPath) : Except PyError Store :=
  if d.is_fitted = false then .error .cannotSaveUnfitted
  else
    .ok (fun p =>
      if p = resolvePath cwd path then
        some { model := d.model
               scaler := d.scaler
               feature_names := d.feature_names
               contamination := d.contamination
               n_estimators := d.n_estimators }
      else store p)

/-- The decoded JSON request object consumed by `process_input`.  `Option`
fields model JSON fields that may be absent (`input_data.get`). -/
structure Request where
  action : Option String
  features : List (List Cell)
  feature_names : List String
  contamination : Option ℝ
  n_estimators : Option ℕ
  model_path : Option PyPath

/-- The JSON response dictionaries produced by `process_input`, by shape.
`errResp` is an error dictionary `{"error": kind, "message": msg}` returned
(not raised) by `process_input`, and also the shape `main` produces from a
caught exception. -/
inductive Resp where
  | fitPredictOk (res : PredictResult) (nSamples nFeatures : ℕ)
  | fitted (nSamples nFeatures : ℕ) (savedTo : Option PyPath)
  | predictOk (res : PredictResult) (nSamples : ℕ)
  | saved (path : PyPath)
  | loaded (featureNames : List String)
  | errResp (kind msg : String)

/-- The error kind of a response, `none` on a success response. -/
def Resp.errKind : Resp → Option String
  | .errResp k _ => some k
  | _ => none

/-- The body of `process_input` after the initial `load` dispatch: the empty
check, the numeric coercion, the construction of a fresh detector, and the
dispatch over the remaining actions.  Threads the `Store` because `fit` and
`save` write a model file. -/
def processInputCore (train : TrainFn) (entropy : ℕ) (store : Store)
    (cwd : List String) (action : String) (features : List (List Cell))
    (featureNames : List String) (contamination : ℝ) (nEstimators : ℕ)
    (modelPath : Option PyPath) : Except PyError (Resp × Store) :=
  if features.length = 0 then
    .ok (.errResp "no_features" "No feature data provided", store)
  else
    let numeric := processMatrix features
    let detector := AnomalyDetector.init contamination nEstimators
    if action = "fit_predict" then
      match detector.fit_predict train entropy numeric featureNames with
      | .error e => .error e
      | .ok res =>
        .ok (.fitPredictOk res numeric.length (matrixWidth numeric), store)
    else if action = "fit" then
      match detector.fit train entropy numeric featureNames with
      | .error e => .error e
      | .ok d =>
        match modelPath with
        | some mp =>
          match d.save store cwd mp with
          | .error e => .error e
          | .ok store2 =>
            .ok (.fitted numeric.length (matrixWidth numeric) (some mp),
                 store2)
        | none =>
          .ok (.fitted numeric.length (matrixWidth numeric) none, store)
    else if action = "predict" then
      match modelPath with
      | some mp =>
        match AnomalyDetector.load store cwd mp with
        | .error e => .error e
        | .ok d =>
          match d.predict numeric with
          | .error e => .error e
          | .ok res => .ok (.predictOk res numeric.length, store)
      | none =>
        .ok (.errResp "no_model" "Provide model_path for predict action",
             store)
    else if action = "save" then
      match modelPath with
      | some mp =>
        match detector.fit train entropy numeric featureNames with
        | .error e => .error e
        | .ok d =>
          match d.save store cwd mp with
          | .error e => .error e
          | .ok store2 => .ok (.saved mp, store2)
      | none =>
        .ok (.errResp "invalid_action" ("Unknown action: " ++ action), store)
    else
      .ok (.errResp "invalid_action" ("Unknown action: " ++ action), store)

/-- `process_input`: defaults (`action` defaults to `"fit_predict"`,
`contamination` to `0.01`, `n_estimators` to `100`), the early `load`
dispatch when a model path is present, then the core body. -/
def process_input (train : TrainFn) (entropy : ℕ) (store : Store)
    (cwd : List String) (req : Request) : Except PyError (Resp × Store) :=
  let action := req.action.getD "fit_predict"
  match req.model_path with
  | some mp =>
    if action = "load" then
      match AnomalyDetector.load store cwd mp with
      | .error e => .error e
      | .ok d => .ok (.loaded d.feature_names, store)
    else
      processInputCore train entropy store cwd action req.features
        req.feature_names (req.contamination.getD (1 / 100))
        (req.n_estimators.getD 100) (some mp)
  | none =>
    processInputCore train entropy store cwd action req.features
      req.feature_names (req.contamination.getD (1 / 100))
      (req.n_estimators.getD 100) none

/-- The message string `main` reports for a caught exception. -/
def pyMessage : PyError → String
  | .notFitted => "Model not fitted. Call fit() first or load a model."
  | .cannotSaveUnfitted => "Cannot save unfitted model"
  | .untrustedPath _ _ => "Untrusted model path"
  | .fileNotFound => "Model file not found"
  | .invalidParameter =>
    "The n_estimators parameter of IsolationForest must be an int in the range 1..inf"
  | .zeroFeatures =>
    "Found array with 0 feature(s) while a minimum of 1 is required"
  | .attributeError => "AttributeError"

/-- The `main` entry point's exception boundary: a result dictionary passes
through; any exception raised below is converted to a
`{"error": "processing_error", ...}` envelope. -/
def runRequest (train : TrainFn) (entropy : ℕ) (store : Store)
    (cwd : List String) (req : Request) : Resp :=
  match process_input train entropy store cwd req with
  | .ok (r, _) => r
  | .error e => .errResp "processing_error" (pyMessage e)

/-- A trivial concrete training function, used to instantiate the abstract
library trainer in witnesses. -/
def constTrain : TrainFn :=
  fun _ _ _ _ => ⟨fun _ => 0, 0⟩

/-- A concrete fitted detector used in witnesses and counterexamples: its
forest scores every sample at `-1` with fitted offset `-1`, and its scaler is
the identity on one column. -/
def sampleDetector : AnomalyDetector :=
  { contamination := 1 / 100
    n_estimators := 100
    model := some ⟨fun _ => -1, -1⟩
    scaler := some ⟨[0], [1]⟩
    feature_names := ["f"]
    is_fitted := true }

/-- The result `sampleDetector.predict [[0]]` produces: decision function
`-1 - (-1) = 0`, hence prediction `1` (normal), anomaly probability `1/2`,
confidence `min(|0 - (-1)|/2, 1) = 1/2`, threshold `-1`. -/
def sampleResult : PredictResult :=
  { predictions := [1]
    anomaly_scores := [1 / 2]
    confidence := [1 / 2]
    raw_scores := [0]
    threshold := -1 }

/-- A trusted concrete model path inside the trusted models directory. -/
def samplePath : PyPath :=
  ⟨true, ["app", "priv", "ml", "models", "m.joblib"]⟩

/-- C1: every `load(path)` call resolves the path to absolute form and
accepts it if and only if it lies within the trusted models directory, or
lies within the broader priv root with the `.joblib` extension; any other
path — including `..` traversals resolving outside both roots — fails with
the untrusted-path error naming both allowed roots. -/
theorem c1_load_trusted_path_policy :
    ∀ (store : Store) (cwd : List String) (p : PyPath),
      (AnomalyDetector.load store cwd p =
          .error (.untrustedPath trustedModelDir privDir) ↔
        isTrustedResolved (resolvePath cwd p) = false) ∧
      (isTrustedResolved (resolvePath cwd p) = true ↔
        (is_path_within (resolvePath cwd p) trustedModelDir = true ∨
          (is_path_within (resolvePath cwd p) privDir = true ∧
            pySuffix ((resolvePath cwd p).getLastD "") = ".joblib"))) ∧
      AnomalyDetector.load store cwd
          ⟨true, ["app", "priv", "ml", "models", "..", "..", "..", "etc",
                  "passwd.joblib"]⟩ =
        .error (.untrustedPath trustedModelDir privDir) := by
  intro store cwd p
  refine ⟨?_, ?_, ?_⟩
  · unfold AnomalyDetector.load
    cases h : isTrustedResolved (resolvePath cwd p) with
    | false => simp [h]
    | true =>
      simp only [h]
      cases store (resolvePath cwd p) <;> simp
  · simp [isTrustedResolved, Bool.or_eq_true, Bool.and_eq_true,
      decide_eq_true_eq]
  · rfl

/-- C8: `predict` on a detector that has never been fitted fails with the
not-fitted error; the error carries no result fields. -/
theorem c8_predict_unfitted :
    ∀ (c : ℝ) (n : ℕ) (X : List (List ℝ)),
      (AnomalyDetector.init c n).predict X = .error .notFitted := by
  intro c n X
  rfl

/-- C9: because `fit` passes the literal `random_state=42` to the library,
two invocations of `fit_predict` (or of the whole dispatcher) on equal input
agree whatever the ambient global random-stream state is. -/
theorem c9_fixed_seed_determinism :
    ∀ (train : TrainFn) (e₁ e₂ : ℕ) (c : ℝ) (n : ℕ) (X : List (List ℝ))
      (names : List String),
      ((AnomalyDetector.init c n).fit_predict train e₁ X names =
        (AnomalyDetector.init c n).fit_predict train e₂ X names) ∧
      ∀ (store : Store) (cwd : List String) (req : Request),
        process_input train e₁ store cwd req =
          process_input train e₂ store cwd req := by
  intro train e₁ e₂ c n X names
  exact ⟨rfl, fun store cwd req => rfl⟩

/-- C7: a request supplying zero samples for any fitting or scoring action
returns the `no_features` error dictionary (the `EmptyInputError` of the
spec) and nothing else. -/
theorem c7_empty_features :
    ∀ (train : TrainFn) (entropy : ℕ) (store : Store) (cwd : List String)
      (req : Request),
      req.features = [] →
      req.action.getD "fit_predict" ∈
        ["fit_predict", "fit", "predict", "save"] →
      process_input train entropy store cwd req =
        .ok (.errResp "no_features" "No feature data provided", store) := by
  intro train entropy store cwd req h1 h2
  simp only [List.mem_cons, List.not_mem_nil, or_false] at h2
  rcases h2 with h | h | h | h <;>
    cases hmp : req.model_path <;>
      simp [process_input, processInputCore, h, h1, hmp]

/-- C7 witness: a concrete request with no action field and empty features
is answered with the `no_features` error dictionary. -/
theorem c7_empty_features_witness :
    process_input (fun _ _ _ _ => ⟨fun _ => 0, 0⟩) 0 (fun _ => none) []
        ⟨none, [], [], none, none, none⟩ =
      .ok (.errResp "no_features" "No feature data provided",
           fun _ => none) := by
  exact c7_empty_features (fun _ _ _ _ => ⟨fun _ => 0, 0⟩) 0 (fun _ => none)
    [] ⟨none, [], [], none, none, none⟩ rfl (by simp)

/-- The `fit_predict` branch of `process_input` never produces the
`invalid_action` error dictionary, whatever the fit outcome. -/
lemma core_fit_predict_not_invalid (train : TrainFn) (entropy : ℕ)
    (store : Store) (cwd : List String) (feats : List (List Cell))
    (fn : List String) (c : ℝ) (n : ℕ) (mp : Option PyPath) (msg : String)
    (st : Store) :
    processInputCore train entropy store cwd "fit_predict" feats fn c n mp ≠
      .ok (.errResp "invalid_action" msg, st) := by
  unfold processInputCore
  by_cases he : feats.length = 0
  · simp [he]
  · rw [if_neg he]
    cases hfp : (AnomalyDetector.init c n).fit_predict train entropy
        (processMatrix feats) fn <;> simp [hfp]

/-- C10: a request whose JSON object omits the `action` field is processed
exactly as if it had requested `fit_predict`, and in particular is never
answered with the `invalid_action` error dictionary. -/
theorem c10_default_action :
    ∀ (train : TrainFn) (entropy : ℕ) (store : Store) (cwd : List String)
      (req : Request),
      req.action = none →
      (process_input train entropy store cwd req =
          process_input train entropy store cwd
            { req with action := some "fit_predict" } ∧
        ∀ msg st,
          process_input train entropy store cwd req ≠
            .ok (.errResp "invalid_action" msg, st)) := by
  intro train entropy store cwd req h
  constructor
  · simp [process_input, h]
  · intro msg st
    unfold process_input
    simp only [h, Option.getD_none]
    cases hmp : req.model_path with
    | none => exact core_fit_predict_not_invalid _ _ _ _ _ _ _ _ _ _ _
    | some mp =>
      dsimp only
      rw [if_neg (by decide)]
      exact core_fit_predict_not_invalid _ _ _ _ _ _ _ _ _ _ _

/-- C10 witness: a concrete request omitting the action field is processed
as `fit_predict`. -/
theorem c10_default_action_witness :
    process_input (fun _ _ _ _ => ⟨fun _ => 0, 0⟩) 0 (fun _ => none) []
        ⟨none, [[.num 1], [.num 2]], [], none, none, none⟩ =
      process_input (fun _ _ _ _ => ⟨fun _ => 0, 0⟩) 0 (fun _ => none) []
        ⟨some "fit_predict", [[.num 1], [.num 2]], [], none, none, none⟩ := by
  exact (c10_default_action (fun _ _ _ _ => ⟨fun _ => 0, 0⟩) 0 (fun _ => none)
    [] ⟨none, [[.num 1], [.num 2]], [], none, none, none⟩ rfl).1

/-- The multiplier in the sigmoid-like transformation is one. -/
lemma anomalyScoreOf_eq (r : ℝ) : anomalyScoreOf r = 1 / (1 + Real.exp r) := by
  unfold anomalyScoreOf
  rw [mul_one]

/-- The transformed score is strictly positive. -/
lemma anomalyScoreOf_pos (r : ℝ) : 0 < anomalyScoreOf r := by
  rw [anomalyScoreOf_eq]
  positivity

/-- The transformed score is strictly below one. -/
lemma anomalyScoreOf_lt_one (r : ℝ) : anomalyScoreOf r < 1 := by
  rw [anomalyScoreOf_eq, div_lt_one (by positivity)]
  linarith [Real.exp_pos r]

/-- The transformation is antitone in the raw score: a lower raw score
(more anomalous in scikit-learn's convention) yields a higher probability. -/
lemma anomalyScoreOf_antitone {r s : ℝ} (h : r ≤ s) :
    anomalyScoreOf s ≤ anomalyScoreOf r := by
  rw [anomalyScoreOf_eq, anomalyScoreOf_eq]
  have h1 : (0:ℝ) < 1 + Real.exp r := by positivity
  have h2 : 1 + Real.exp r ≤ 1 + Real.exp s := by
    have := Real.exp_le_exp.mpr h
    linarith
  exact one_div_le_one_div_of_le h1 h2

/-- The transformed score is one half exactly at raw score zero. -/
lemma anomalyScoreOf_eq_half_iff (r : ℝ) :
    anomalyScoreOf r = 1 / 2 ↔ r = 0 := by
  rw [anomalyScoreOf_eq,
    div_eq_div_iff (by positivity : (0:ℝ) < 1 + Real.exp r).ne'
      (by norm_num : (2:ℝ) ≠ 0)]
  constructor
  · intro h
    have he : Real.exp r = 1 := by linarith
    have hl : r = Real.log 1 := by rw [← Real.log_exp r, he]
    simpa using hl
  · intro h
    subst h
    rw [Real.exp_zero]
    norm_num

/-- Evaluation of `sampleDetector.predict` on the single sample `[0]`. -/
lemma sampleDetector_predict :
    sampleDetector.predict [[0]] = .ok sampleResult := by
  unfold AnomalyDetector.predict sampleDetector
  simp only [Scaler.transform, Scaler.transformRow, List.map,
    ForestModel.decision_function, ForestModel.predictOne, anomalyScoreOf,
    sampleResult, List.zip, List.zipWith]
  norm_num [Real.exp_zero, PredictResult.mk.injEq, abs_of_nonneg]

/-- C2: saving a fitted model and loading it back from the same (trusted)
path recovers the detector exactly, so predictions, scores, confidence and
threshold on any held-out feature matrix coincide with the original
in-memory model's. -/
theorem c2_save_load_roundtrip :
    ∀ (d : AnomalyDetector) (store : Store) (cwd : List String) (p : PyPath)
      (X : List (List ℝ)),
      d.is_fitted = true →
      isTrustedResolved (resolvePath cwd p) = true →
      (d.save store cwd p).map
          (fun st => AnomalyDetector.load st cwd p) = .ok (.ok d) ∧
      (d.save store cwd p).map
          (fun st => (AnomalyDetector.load st cwd p).map
            (fun d2 => d2.predict X)) = .ok (.ok (d.predict X)) := by
  intro d store cwd p X hf ht
  obtain ⟨c, n, mo, sc, fn, fit⟩ := d
  simp only [AnomalyDetector.is_fitted] at hf
  subst hf
  constructor <;>
    simp [AnomalyDetector.save, AnomalyDetector.load, Except.map, ht]

/-- C2 witness: the round trip on a concrete fitted detector through a
concrete trusted path. -/
theorem c2_save_load_roundtrip_witness :
    (sampleDetector.save (fun _ => none) [] samplePath).map
        (fun st => AnomalyDetector.load st [] samplePath) =
      .ok (.ok sampleDetector) ∧
    (sampleDetector.save (fun _ => none) [] samplePath).map
        (fun st => (AnomalyDetector.load st [] samplePath).map
          (fun d2 => d2.predict [[0]])) =
      .ok (.ok (sampleDetector.predict [[0]])) := by
  exact c2_save_load_roundtrip sampleDetector (fun _ => none) [] samplePath
    [[0]] rfl rfl

/-- Inversion for a successful `predict` call: the detector carries a scaler
and a model, and the result is the record built from them. -/
lemma predict_ok_inv {d : AnomalyDetector} {X : List (List ℝ)}
    {res : PredictResult} (h : d.predict X = .ok res) :
    ∃ sc m, d.scaler = some sc ∧ d.model = some m ∧
      res = { predictions := (sc.transform X).map m.predictOne
              anomaly_scores :=
                ((sc.transform X).map m.decision_function).map anomalyScoreOf
              confidence :=
                ((sc.transform X).map m.decision_function).map
                  (fun r => min (|r - m.offset| / 2) 1)
              raw_scores := (sc.transform X).map m.decision_function
              threshold := m.offset } := by
  unfold AnomalyDetector.predict at h
  by_cases hf : d.is_fitted = false
  · rw [if_pos hf] at h
    simp at h
  · rw [if_neg hf] at h
    rcases hsc : d.scaler with _ | sc
    · rw [hsc] at h
      rcases hmo : d.model with _ | m <;> rw [hmo] at h <;> simp at h
    · rw [hsc] at h
      rcases hmo : d.model with _ | m
      · rw [hmo] at h
        simp at h
      · rw [hmo] at h
        exact ⟨sc, m, rfl, rfl, (Except.ok.inj h).symm⟩

/-- C3 counterexample: on a concrete fitted detector the anomaly probability
is `1/2` at a sample whose returned raw score is `0`, while the returned
threshold is `-1`; so the probability is not `0.5` exactly when the raw
score equals the returned threshold. -/
theorem c3_counterexample_half_not_at_threshold :
    (sampleDetector.predict [[0]]).map PredictResult.anomaly_scores =
      .ok [1 / 2] ∧
    (sampleDetector.predict [[0]]).map PredictResult.raw_scores = .ok [0] ∧
    (sampleDetector.predict [[0]]).map PredictResult.threshold = .ok (-1) ∧
    (0 : ℝ) ≠ -1 := by
  refine ⟨?_, ?_, ?_, by norm_num⟩ <;>
    simp [sampleDetector_predict, sampleResult, Except.map]

/-- C3 amended: the returned anomaly probability is the fixed-slope logistic
`1/(1+exp(·))` applied to the returned raw score (which is the signed
distance `score_samples − offset`); it lies strictly inside `[0,1]`, is
antitone in the raw score (so monotone in anomalousness), and equals `0.5`
exactly when the raw score is zero, i.e. when the sample's underlying score
equals the fitted offset — not when the raw score equals the returned
threshold. -/
theorem c3_probability_logistic_of_raw :
    ∀ (d : AnomalyDetector) (X : List (List ℝ)) (res : PredictResult),
      d.predict X = .ok res →
      res.anomaly_scores = res.raw_scores.map anomalyScoreOf ∧
      (∀ r : ℝ, 0 < anomalyScoreOf r ∧ anomalyScoreOf r < 1) ∧
      (∀ r s : ℝ, r ≤ s → anomalyScoreOf s ≤ anomalyScoreOf r) ∧
      (∀ r : ℝ, anomalyScoreOf r = 1 / 2 ↔ r = 0) ∧
      (∀ m sc, d.model = some m → d.scaler = some sc →
        res.raw_scores =
          (sc.transform X).map (fun v => m.scoreSamples v - m.offset) ∧
        res.threshold = m.offset) := by
  intro d X res h
  obtain ⟨sc, m, hsc, hmo, hres⟩ := predict_ok_inv h
  subst hres
  refine ⟨rfl, fun r => ⟨anomalyScoreOf_pos r, anomalyScoreOf_lt_one r⟩,
    fun r s hrs => anomalyScoreOf_antitone hrs,
    fun r => anomalyScoreOf_eq_half_iff r, ?_⟩
  intro m2 sc2 hm2 hsc2
  rw [hmo] at hm2
  rw [hsc] at hsc2
  rw [Option.some.injEq] at hm2 hsc2
  subst hm2
  subst hsc2
  exact ⟨rfl, rfl⟩

/-- C3 witness: the amended statement instantiated on the concrete detector
and sample. -/
theorem c3_probability_logistic_of_raw_witness :
    sampleResult.anomaly_scores =
      sampleResult.raw_scores.map anomalyScoreOf ∧
    (anomalyScoreOf 0 = 1 / 2 ↔ (0 : ℝ) = 0) ∧
    sampleResult.threshold = ForestModel.offset ⟨fun _ => -1, -1⟩ := by
  obtain ⟨h1, _, _, h4, h5⟩ := c3_probability_logistic_of_raw sampleDetector
    [[0]] sampleResult sampleDetector_predict
  exact ⟨h1, h4 0, (h5 ⟨fun _ => -1, -1⟩ ⟨[0], [1]⟩ rfl rfl).2⟩

/-- C4 counterexample: on a concrete fitted detector a sample's returned raw
score `0` exceeds the returned threshold `-1`, yet the prediction is `1`
(normal); so the prediction is not `anomaly` exactly when the raw score
exceeds the returned threshold. -/
theorem c4_counterexample_normal_above_threshold :
    (sampleDetector.predict [[0]]).map PredictResult.predictions =
      .ok [1] ∧
    (sampleDetector.predict [[0]]).map PredictResult.raw_scores = .ok [0] ∧
    (sampleDetector.predict [[0]]).map PredictResult.threshold = .ok (-1) ∧
    ((0 : ℝ) > -1) ∧ ((1 : ℤ) ≠ -1) := by
  refine ⟨?_, ?_, ?_, by norm_num, by norm_num⟩ <;>
    simp [sampleDetector_predict, sampleResult, Except.map]

/-- C4 amended: the prediction is `-1` (anomaly) exactly when the returned
raw score — the decision-function value `score_samples − offset` — is
negative, i.e. when the sample's underlying score lies below the fitted
offset; it is `1` (normal) otherwise. -/
theorem c4_prediction_sign_of_raw :
    ∀ (d : AnomalyDetector) (X : List (List ℝ)) (res : PredictResult),
      d.predict X = .ok res →
      res.predictions =
        res.raw_scores.map (fun r => if r < 0 then (-1 : ℤ) else 1) ∧
      ∀ m sc, d.model = some m → d.scaler = some sc →
        res.predictions =
          (sc.transform X).map
            (fun v => if m.scoreSamples v < m.offset then (-1 : ℤ) else 1) := by
  intro d X res h
  obtain ⟨sc, m, hsc, hmo, hres⟩ := predict_ok_inv h
  subst hres
  constructor
  · dsimp only
    rw [List.map_map]
    rfl
  · intro m2 sc2 hm2 hsc2
    rw [hmo] at hm2
    rw [hsc] at hsc2
    rw [Option.some.injEq] at hm2 hsc2
    subst hm2
    subst hsc2
    have hfun : m.predictOne =
        fun v => if m.scoreSamples v < m.offset then (-1 : ℤ) else 1 := by
      funext v
      unfold ForestModel.predictOne ForestModel.decision_function
      simp only [sub_neg]
    dsimp only
    rw [hfun]

/-- C4 witness: the amended statement instantiated on the concrete detector
and sample. -/
theorem c4_prediction_sign_of_raw_witness :
    sampleResult.predictions =
      sampleResult.raw_scores.map (fun r => if r < 0 then (-1 : ℤ) else 1) ∧
    sampleResult.predictions =
      (Scaler.transform ⟨[0], [1]⟩ [[0]]).map
        (fun v => if ForestModel.scoreSamples ⟨fun _ => -1, -1⟩ v <
            ForestModel.offset ⟨fun _ => -1, -1⟩ then (-1 : ℤ) else 1) := by
  obtain ⟨h1, h2⟩ := c4_prediction_sign_of_raw sampleDetector [[0]]
    sampleResult sampleDetector_predict
  exact ⟨h1, h2 ⟨fun _ => -1, -1⟩ ⟨[0], [1]⟩ rfl rfl⟩

/-- C5 counterexample: fitting with `n_estimators = 0` fails, but the
reported error kind is the dispatcher's generic `processing_error` (from the
library's parameter validation), not an insufficient-data error — no
`insufficient_data` error kind exists anywhere in the code. -/
theorem c5_counterexample_error_kind :
    (runRequest constTrain 0 (fun _ => none) []
        ⟨some "fit_predict", [[.num 1], [.num 2], [.num 3]], [], none,
         some 0, none⟩).errKind = some "processing_error" ∧
    some "processing_error" ≠ some "insufficient_data" := by
  exact ⟨rfl, by simp⟩

/-- C5 amended: `fit` performs no insufficient-data validation of its own.
With `n_estimators = 0` (and a nonzero feature count) it fails with the
library's parameter-validation error, as it does with a numeric
`contamination` outside `(0, 0.5]`; with zero feature columns it fails with
the library's empty-feature check; all of these surface at the `main`
boundary as the generic `processing_error` envelope.  A sub-sample of a
single sample does not fail at all: with in-range hyperparameters `fit`
succeeds and produces a (degenerate) model. -/
theorem c5_degenerate_fit_behavior :
    ∀ (train : TrainFn) (entropy : ℕ) (d : AnomalyDetector)
      (X : List (List ℝ)) (names : List String),
      (d.n_estimators = 0 → matrixWidth X ≠ 0 →
        d.fit train entropy X names = .error .invalidParameter) ∧
      (matrixWidth X = 0 →
        d.fit train entropy X names = .error .zeroFeatures) ∧
      (1 ≤ d.n_estimators →
        ¬(0 < d.contamination ∧ d.contamination ≤ 1 / 2) →
        matrixWidth X ≠ 0 →
        d.fit train entropy X names = .error .invalidParameter) ∧
      (1 ≤ d.n_estimators → 0 < d.contamination →
        d.contamination ≤ 1 / 2 → matrixWidth X ≠ 0 →
        (d.fit train entropy X names).isOk = true) ∧
      (∀ (store : Store) (cwd : List String) (req : Request) (e : PyError),
        process_input train entropy store cwd req = .error e →
        runRequest train entropy store cwd req =
          .errResp "processing_error" (pyMessage e)) := by
  intro train entropy d X names
  refine ⟨?_, ?_, ?_, ?_, ?_⟩
  · intro h0 hw
    unfold AnomalyDetector.fit libScalerFitTransform libIsolationForestFit
    rw [if_neg hw]
    simp [h0]
  · intro hw
    unfold AnomalyDetector.fit libScalerFitTransform
    rw [if_pos hw]
  · intro h1 hbad hw
    unfold AnomalyDetector.fit libScalerFitTransform libIsolationForestFit
    rw [if_neg hw]
    dsimp only
    rw [if_neg (Nat.not_lt_of_le h1), if_pos hbad]
  · intro h1 hc1 hc2 hw
    unfold AnomalyDetector.fit libScalerFitTransform libIsolationForestFit
    rw [if_neg hw]
    dsimp only
    rw [if_neg (Nat.not_lt_of_le h1), if_neg (not_not_intro ⟨hc1, hc2⟩)]
    rfl
  · intro store cwd req e h
    unfold runRequest
    rw [h]

/-- C5 witness: the amended behavior on concrete inputs — zero estimators
fail with the parameter error, an out-of-range contamination of `0.9` fails
with the parameter error, zero features fail with the empty-feature error,
a single-sample fit with in-range hyperparameters succeeds, and the
dispatcher converts the exception to the `processing_error` envelope. -/
theorem c5_degenerate_fit_behavior_witness :
    ((AnomalyDetector.init (1 / 100) 0).fit constTrain 0 [[1], [2], [3]] [] =
      .error .invalidParameter) ∧
    ((AnomalyDetector.init (9 / 10) 100).fit constTrain 0 [[1]] [] =
      .error .invalidParameter) ∧
    ((AnomalyDetector.init (1 / 100) 100).fit constTrain 0 [[], []] [] =
      .error .zeroFeatures) ∧
    (((AnomalyDetector.init (1 / 100) 100).fit constTrain 0 [[5]] []).isOk =
      true) ∧
    (runRequest constTrain 0 (fun _ => none) []
        ⟨some "fit_predict", [[.num 1]], [], none, some 0, none⟩ =
      .errResp "processing_error" (pyMessage .invalidParameter)) := by
  refine ⟨?_, ?_, ?_, ?_, ?_⟩
  · exact (c5_degenerate_fit_behavior constTrain 0
      (AnomalyDetector.init (1 / 100) 0) [[1], [2], [3]] []).1 rfl
      (by simp [matrixWidth])
  · exact (c5_degenerate_fit_behavior constTrain 0
      (AnomalyDetector.init (9 / 10) 100) [[1]] []).2.2.1
      (by norm_num [AnomalyDetector.init])
      (by norm_num [AnomalyDetector.init]) (by simp [matrixWidth])
  · exact (c5_degenerate_fit_behavior constTrain 0
      (AnomalyDetector.init (1 / 100) 100) [[], []] []).2.1 rfl
  · exact (c5_degenerate_fit_behavior constTrain 0
      (AnomalyDetector.init (1 / 100) 100) [[5]] []).2.2.2.1
      (by norm_num [AnomalyDetector.init])
      (by norm_num [AnomalyDetector.init])
      (by norm_num [AnomalyDetector.init]) (by simp [matrixWidth])
  · exact (c5_degenerate_fit_behavior constTrain 0
      (AnomalyDetector.init (1 / 100) 0) [[1]] []).2.2.2.2 (fun _ => none) []
      ⟨some "fit_predict", [[.num 1]], [], none, some 0, none⟩
      .invalidParameter rfl

/-- C6: feature preprocessing replaces every null, unparseable, NaN and
±Infinity cell by zero, leaves a finite cell's value unchanged, preserves
the matrix shape, and in particular a `fit_predict` request with features
`[[1, null, 3]]` succeeds with the null treated as `0`. -/
theorem c6_preprocessing_replaces_bad_cells :
    (∀ x : ℝ, processCell (.num x) = x) ∧
    processCell .null = 0 ∧ processCell .nan = 0 ∧ processCell .inf = 0 ∧
    processCell .neginf = 0 ∧ processCell .junk = 0 ∧
    (∀ m : List (List Cell),
      (processMatrix m).length = m.length ∧
      ∀ i : ℕ, ((processMatrix m)[i]?).map List.length =
        (m[i]?).map List.length) ∧
    processMatrix [[.num 1, .null, .num 3]] = [[1, 0, 3]] ∧
    ∀ (train : TrainFn) (entropy : ℕ) (store : Store) (cwd : List String),
      (process_input train entropy store cwd
        ⟨none, [[.num 1, .null, .num 3]], [], none, none, none⟩).isOk =
        true := by
  refine ⟨fun x => rfl, rfl, rfl, rfl, rfl, rfl, ?_, rfl, ?_⟩
  · intro m
    constructor
    · simp [processMatrix]
    · intro i
      cases h : m[i]? <;> simp [processMatrix, List.getElem?_map, h]
  · intro train entropy store cwd
    norm_num [process_input, processInputCore, AnomalyDetector.fit_predict,
      AnomalyDetector.fit, libScalerFitTransform, libIsolationForestFit,
      AnomalyDetector.predict, AnomalyDetector.init, processMatrix,
      processCell, matrixWidth, Except.isOk, Except.toBool]

end Volfefe
